import Mathlib

/-!
Verification of the cf-slot-app client/proxy logic.

Shallow embedding of the JavaScript sources:
  * `public/js/ui.js`        - time parsing / duration validation
  * `booking.js`             - time-option generation, lock-response handling,
                               DOP/cast selection, submit in-flight guard
  * `public/js/my-day.js`    - lock-response normalization of the edit-team
                               flow, freed-booking markers
  * `public/js/attendance.js`- attendance option filtering
  * `api/n8n.js`             - gateway proxy request-id echo check

JavaScript values that flow through the untyped upstream responses are
modelled by the inductive type `JVal`; JavaScript machine strings are Lean
`String`s (the pages only handle ASCII names/times, where JS UTF-16
ordering, `toLowerCase` and `trim` agree with the Lean counterparts used
here); JS numbers in the modelled paths are integers, with `NaN` modelled
as `Option.none` where it can arise.
-/

/-- Model of a JavaScript (JSON-like) runtime value.  `jnull` doubles for
`undefined` (both are falsy and compare unequal to every string). -/
inductive JVal where
  | jnull : JVal
  | jbool : Bool → JVal
  | jnum : Int → JVal
  | jstr : String → JVal
  | jarr : List JVal → JVal
  | jobj : List (String × JVal) → JVal
deriving Inhabited

/-- JavaScript truthiness of a value (`if (v)`). -/
def jsTruthy : JVal → Bool
  | .jnull => false
  | .jbool b => b
  | .jnum n => n ≠ 0
  | .jstr s => s ≠ ""
  | .jarr _ => true
  | .jobj _ => true

/-- `Array.isArray(v)`. -/
def jsIsArray : JVal → Bool
  | .jarr _ => true
  | _ => false

/-- First binding of a key in an association list (JS objects cannot
carry duplicate keys; the pages build them literally). -/
def findByKey {α : Type} : List (String × α) → String → Option α
  | [], _ => none
  | p :: rest, k => if p.1 = k then some p.2 else findByKey rest k

/-- JavaScript property read `v[k]`: a `TypeError` (`none`) on a
`null`/`undefined` base, the bound value or `undefined` on an object, and
`undefined` on every other base (primitives are boxed; the arrays read
here have no own property named like the keys the pages look up).  (No
modelled object uses inherited properties.) -/
def jsGet : JVal → String → Option JVal
  | .jnull, _ => none
  | .jobj fs, k => some ((findByKey fs k).getD .jnull)
  | _, _ => some .jnull

/-- Optional-chaining read `v?.k`: `undefined` instead of a throw on a
`null`/`undefined` base, otherwise the plain read (which cannot throw on
a non-null base). -/
def jsOptGet : JVal → String → JVal
  | .jobj fs, k => (findByKey fs k).getD .jnull
  | _, _ => .jnull

/-- Whether an object literally carries a key (used to state claims that
speak of a field being "present"). -/
def lookupField : JVal → String → Option JVal
  | .jobj fs, k => findByKey fs k
  | _, _ => none

/-- `Array.isArray(v) ? v : []` (the final coercion of the lock path's
`namesArray`). -/
def jsArrayOrNil : JVal → List JVal
  | .jarr xs => xs
  | _ => []

/-- `String(v || '')` as used on roster entries.  Falsy values give `""`;
numeric/array entries never occur in the rosters handled below and are
modelled by `""` (a real page would render their decimal/joined form). -/
def jsStringOrEmpty : JVal → String
  | .jstr s => s
  | .jbool b => if b then "true" else ""
  | .jobj _ => "[object Object]"
  | _ => ""

/-- Strict inequality `v !== s` against a string literal: values of a
different runtime type are always `!==`. -/
def jvalNeqStr : JVal → String → Bool
  | .jstr t, s => t ≠ s
  | _, _ => true

/-- `v === "Ongoing Booking"` (strict equality against the conflict
marker string). -/
def isOngoing : JVal → Bool
  | .jstr s => s = "Ongoing Booking"
  | _ => false

/-! ### Character-list string primitives

The JS string methods used by the pages (`trim`, `toLowerCase`,
`startsWith`, `split`, lexicographic `<`/`>=`) are modelled on the
character lists underlying Lean strings, so that every theorem below can
be evaluated by the kernel. -/

/-- Whitespace test backing the model of `String.prototype.trim`. -/
def isWsChar (c : Char) : Bool :=
  c = ' ' || c = '\t' || c = '\n' || c = '\r'

/-- Drop leading and trailing whitespace (JS `trim`). -/
def trimChars (cs : List Char) : List Char :=
  ((cs.dropWhile isWsChar).reverse.dropWhile isWsChar).reverse

/-- JS `s.trim()`. -/
def trimS (s : String) : String := String.mk (trimChars s.data)

/-- JS `s.toLowerCase()` (ASCII domain). -/
def toLowerS (s : String) : String := String.mk (s.data.map Char.toLower)

/-- Character-list helper for JS `startsWith`. -/
def lcLeads : List Char → List Char → Bool
  | [], _ => true
  | _ :: _, [] => false
  | a :: as, b :: bs => a = b && lcLeads as bs

/-- JS `s.startsWith(p)`. -/
def startsS (s p : String) : Bool := lcLeads p.data s.data

/-- Character-list lexicographic `<` (JS string comparison on ASCII). -/
def lcLt : List Char → List Char → Bool
  | [], [] => false
  | [], _ :: _ => true
  | _ :: _, [] => false
  | a :: as, b :: bs => if a < b then true else if b < a then false else lcLt as bs

/-- JS `a >= b` on strings. -/
def jsStrGe (a b : String) : Bool := !(lcLt a.data b.data)

/-- Character-list splitter backing JS `s.split(sep)` (single-character
separator; `"".split(sep)` gives `[""]`, a trailing separator yields a
final `""`). -/
def splitCharsOn (sep : Char) : List Char → List Char → List String
  | [], acc => [String.mk acc.reverse]
  | c :: rest, acc =>
    if c = sep then String.mk acc.reverse :: splitCharsOn sep rest []
    else splitCharsOn sep rest (c :: acc)

/-- JS `s.split(sep)` for a one-character separator. -/
def splitS (sep : Char) (s : String) : List String :=
  splitCharsOn sep s.data []

/-- Decimal digit value of a character (only called on digits). -/
def digitVal (c : Char) : Nat := c.toNat - 48

/-- Digit rendering for the two-digit time components built below. -/
def digitChar : Nat → Char
  | 0 => '0' | 1 => '1' | 2 => '2' | 3 => '3' | 4 => '4'
  | 5 => '5' | 6 => '6' | 7 => '7' | 8 => '8' | _ => '9'

/-- `String(n).padStart(2, '0')` for the hour/minute values (< 100) that
the pages produce. -/
def pad2 (n : Nat) : String :=
  String.mk [digitChar (n / 10 % 10), digitChar (n % 10)]

/-- JS `Number(str)` restricted to the inputs reachable here: optional
sign around a decimal-digit run after trimming, `""` → `0`; anything else
is `NaN`, modelled as `none`. -/
def jsNumber (s : String) : Option Int :=
  let cs := trimChars s.data
  match cs with
  | [] => some 0
  | '-' :: ds =>
    if ds ≠ [] && ds.all Char.isDigit then
      some (-(Int.ofNat (ds.foldl (fun a c => a * 10 + digitVal c) 0)))
    else none
  | ds =>
    if ds.all Char.isDigit then
      some (Int.ofNat (ds.foldl (fun a c => a * 10 + digitVal c) 0))
    else none

/-! ### `ui.js`: durations and time-selection validation -/

/-- The pair destructuring `const [fh, fm] = time.split(':').map(Number)`
followed by `fh * 60 + fm`; `none` is `NaN` (missing second component or
non-numeric parts). -/
def parseMinutesJs (s : String) : Option Int :=
  match (splitS ':' s).map jsNumber with
  | [_] => none
  | some a :: some b :: _ => some (a * 60 + b)
  | _ => none

/-- `UI.getTimeDuration(fromTime, toTime)` (ui.js lines 174-184): `0` when
either argument is falsy, otherwise the literal subtraction
`toMinutes - fromMinutes`; `none` models a `NaN` result. -/
def getTimeDuration (fromTime toTime : String) : Option Int :=
  if fromTime = "" || toTime = "" then some 0
  else
    match parseMinutesJs fromTime, parseMinutesJs toTime with
    | some f, some t => some (t - f)
    | _, _ => none

/-- JS `x < n` where `x` may be `NaN` (`NaN` comparisons are false). -/
def jsLtConst (x : Option Int) (n : Int) : Bool :=
  match x with
  | some a => a < n
  | none => false

/-- JS `x > n` where `x` may be `NaN`. -/
def jsGtConst (x : Option Int) (n : Int) : Bool :=
  match x with
  | some a => n < a
  | none => false

/-- Result shape of `UI.validateTimeSelection`. -/
structure ValidationResult where
  valid : Bool
  error : String
deriving DecidableEq

/-- `UI.validateTimeSelection(fromTime, toTime)` (ui.js lines 192-208). -/
def validateTimeSelection (fromTime toTime : String) : ValidationResult :=
  if fromTime = "" || toTime = "" then
    ⟨false, "Select both from and to time"⟩
  else
    let duration := getTimeDuration fromTime toTime
    if jsLtConst duration 30 then
      ⟨false, "Duration must be at least 30 minutes"⟩
    else if jsGtConst duration (30 * 60) then
      ⟨false, "Duration cannot exceed 30 hours"⟩
    else
      ⟨true, ""⟩

/-! ### `booking.js`: the 30-minute grid and the today filter -/

/-- `generateTimeOptions` (booking.js lines 60-79): `"HH:MM"` strings for
h from 8 to 31 wrapped mod 24, minutes 0 and 30 - the 48 options running
08:00 through 07:30 of the next day. -/
def timeGrid : List String :=
  ((List.range 24).map (fun k => 8 + k)).flatMap
    (fun h => [pad2 (h % 24) ++ ":00", pad2 (h % 24) ++ ":30"])

/-- The filter threshold `selectDate` computes for offset 0 (booking.js
lines 254-265): `HH:30` when the current minute is ≤ 30, else
`(HH+1) mod 24:00`. -/
def filterTimeFor (nowH nowM : Nat) : String :=
  if nowM ≤ 30 then pad2 nowH ++ ":30"
  else pad2 ((nowH + 1) % 24) ++ ":00"

/-- The time options offered when "today" is selected (booking.js lines
269-271): `allTimes.filter(time => time >= filterTime)` under JS string
comparison. -/
def availableTimesToday (nowH nowM : Nat) : List String :=
  timeGrid.filter (fun t => jsStrGe t (filterTimeFor nowH nowM))

/-! Spec-side time arithmetic used to state the claims about the grid. -/

/-- Minutes since midnight of a well-formed `"HH:MM"` string (spec-side
reading used in the claim statements; `0` elsewhere). -/
def specMinutes (s : String) : Int :=
  match s.data with
  | [h1, h2, ':', m1, m2] =>
    Int.ofNat ((digitVal h1 * 10 + digitVal h2) * 60 + (digitVal m1 * 10 + digitVal m2))
  | _ => 0

/-- "Now rounded up to the next 30-minute boundary" read as the ceiling to
a multiple of 30 minutes, rendered as the wrapped `"HH:MM"` string - the
round-up the claim about the today filter asserts. -/
def roundUp30Str (nowH nowM : Nat) : String :=
  let c := (nowH * 60 + nowM + 29) / 30 * 30
  pad2 (c / 60 % 24) ++ ":" ++ pad2 (c % 60)

/-- The today options the claim asserts: grid times at or after the
rounded-up current time (same string comparison the code uses). -/
def claimAvailableToday (nowH nowM : Nat) : List String :=
  timeGrid.filter (fun t => jsStrGe t (roundUp30Str nowH nowM))

/-- Minute value of the threshold the code actually uses (for the amended
statement of the today filter). -/
def filterMinutes (nowH nowM : Nat) : Int :=
  if nowM ≤ 30 then Int.ofNat (nowH * 60 + 30)
  else Int.ofNat ((nowH + 1) % 24 * 60)

/-! ### `booking.js`: lock-response handling (`lockDateAndTime`) -/

/-- The lock path's roster normalization (booking.js lines 386-393):
accepts `{name: [...]}` and `[{name: [...]}, ...]`, with a final
`Array.isArray(namesArray) ? namesArray : []` coercion.  `response.name`
is read only behind the short-circuiting `response && ...`, so that read
cannot throw; `response[0].name` throws (`none`) when the first array
element is `null`/`undefined`, sending `lockDateAndTime` into its catch
block. -/
def lockNamesArray (response : JVal) : Option (List JVal) :=
  -- the `response.name` read happens only when `response` is truthy (hence
  -- non-null), where the plain read cannot throw and agrees with the
  -- null-safe `jsOptGet`
  let fromObj := jsOptGet response "name"
  if jsTruthy response && jsTruthy fromObj && jsIsArray fromObj then
    some (jsArrayOrNil fromObj)
  else
    match response with
    | .jarr (x :: _) =>
      (jsGet x "name").map (fun n0 => if jsTruthy n0 then jsArrayOrNil n0 else [])
    | _ => some []

/-- One roster entry test of the membership check (booking.js lines
398-404): the trimmed, lowercased entry equals the lowercased current
name, or starts with it followed by `" -"` or `" "`. -/
def entryMatches (currentLower : String) (entry : String) : Bool :=
  let sL := toLowerS (trimS entry)
  sL = currentLower || startsS sL (currentLower ++ " -") || startsS sL (currentLower ++ " ")

/-- `isInList` (booking.js lines 396-404): falsy when the trimmed current
name is empty, else an existential over the roster entries coerced with
`String(entry || '')`. -/
def isInList (userName : String) (names : List String) : Bool :=
  let currentName := trimS userName
  currentName ≠ "" && names.any (entryMatches (toLowerS currentName))

/-- Substring search for `"DOP"` (JS `name.includes('DOP')`). -/
def lcHasDOP : List Char → Bool
  | [] => false
  | l@(_ :: rest) => lcLeads ['D', 'O', 'P'] l || lcHasDOP rest

/-- The DOP partition `namesArray.filter(name => name.includes('DOP'))`
(booking.js line 424): calling `.includes` on a non-string entry raises a
`TypeError` (`none`), sending `lockDateAndTime` into its catch block
before any lock state is set. -/
def dopFilter : List JVal → Option (List JVal)
  | [] => some []
  | .jstr s :: rest =>
    (dopFilter rest).map (fun r => if lcHasDOP s.data then .jstr s :: r else r)
  | _ :: _ => none

/-- Outcome of `lockDateAndTime` after the lock response arrives
(booking.js lines 369-449).  `locked` records the DOP list, the full cast
list and the inactivity timer delay the code arms (90000 ms). -/
inductive LockOutcome where
  | ongoingConflict : LockOutcome
  | alreadyBooked : LockOutcome
  | locked : List JVal → List JVal → Nat → LockOutcome

/-- The response-driven branch of `lockDateAndTime`: the
`{key:"Ongoing Booking"}` soft-conflict early return (read with optional
chaining `response?.key`, which never throws), then roster normalization,
the already-booked rejection for a non-empty roster not matching the
user, and otherwise the transition to the locked state with the DOP
partition and the 90-second timer.  `none` models a `TypeError` (thrown
by the normalization or the DOP partition): `lockDateAndTime`'s catch
block shows the error and no lock state or timer is set. -/
def lockOutcome (userName : String) (response : JVal) : Option LockOutcome :=
  if isOngoing (jsOptGet response "key") then some .ongoingConflict
  else
    match lockNamesArray response with
    | none => none
    | some namesArray =>
      if namesArray.length > 0 && !(isInList userName (namesArray.map jsStringOrEmpty)) then
        some .alreadyBooked
      else
        (dopFilter namesArray).map (fun dopList => .locked dopList namesArray 90000)

/-! ### `booking.js`: DOP/cast selection and submission payload -/

/-- JS `Set.add` on the insertion-ordered selection sets. -/
def setAdd (l : List String) (x : String) : List String :=
  if l.contains x then l else l ++ [x]

/-- JS `Set.delete`. -/
def setDelete (l : List String) (x : String) : List String :=
  l.filter (fun y => y ≠ x)

/-- The mutable selection state `{selectedDops, selectedCast}` of
`bookingState`, as insertion-ordered lists (JS `Set` iteration order). -/
structure SelState where
  dops : List String
  cast : List String
deriving DecidableEq

/-- A checkbox `change` event on the DOP or cast section. -/
inductive SelEv where
  | dopChange (name : String) (checked : Bool)
  | castChange (name : String) (checked : Bool)

/-- One UI event against the selection state (booking.js lines 480-490
and 534-546).  A DOP checkbox exists for `dopList` entries; a cast
checkbox exists for `castList` entries and is rendered `disabled` exactly
when its name is currently in `selectedDops`, so a cast `change` event is
impossible for such a name (`none`).  A DOP change re-renders the cast
checkboxes (updating only their disabled state, not `selectedCast`). -/
def selStep (dopList castList : List String) (s : SelState) : SelEv → Option SelState
  | .dopChange n true =>
    if dopList.contains n then some { s with dops := setAdd s.dops n } else none
  | .dopChange n false =>
    if dopList.contains n then some { s with dops := setDelete s.dops n } else none
  | .castChange n b =>
    if castList.contains n && !(s.dops.contains n) then
      some { s with cast := if b then setAdd s.cast n else setDelete s.cast n }
    else none

/-- Run a sequence of selection events from a state. -/
def runSel (dopList castList : List String) (s : SelState) : List SelEv → Option SelState
  | [] => some s
  | e :: es =>
    match selStep dopList castList s e with
    | some s' => runSel dopList castList s' es
    | none => none

/-- The `selected` object of the `booking_submit` payload (booking.js
lines 708-711): `Array.from` of the two sets. -/
def submitSelected (s : SelState) : List String × List String :=
  (s.dops, s.cast)

/-! ### `booking.js`: the submit in-flight guard (`submitBooking`) -/

/-- The module-level `bookingSubmitInFlight` flag plus a count of
`booking_submit` network calls issued. -/
structure SubmitSt where
  inFlight : Bool
  posts : Nat
deriving DecidableEq

/-- An invocation of `submitBooking` up to the point where it suspends on
the network call (booking.js lines 669-724): returns immediately when the
guard is set; otherwise sets the guard and issues exactly one POST. -/
def submitInvoke (s : SubmitSt) : SubmitSt :=
  if s.inFlight then s else { inFlight := true, posts := s.posts + 1 }

/-- The continuation of a pending `submitBooking` once its network call
settles: the `finally` block (booking.js lines 743-747) clears the guard
on success and failure alike. -/
def submitSettle (s : SubmitSt) (_success : Bool) : SubmitSt :=
  { s with inFlight := false }

/-! ### `my-day.js`: edit-team roster normalization -/

/-- The three-way shape detection of `initiateEditBooking` (my-day.js
lines 1269-1291): `{name:[...]}`, `[{name:[...]}]`, or the bare array
itself.  The `response.name` read sits inside `if (response)`, so it
cannot throw (modelled by the null-safe `jsOptGet`, which agrees with the
plain read on a truthy base); `response[0].name` throws (`none`) when the
first element is `null`/`undefined`, sending `initiateEditBooking` into
its catch block. -/
def editNamesArray (response : JVal) : Option (List JVal) :=
  if jsTruthy response then
    let n := jsOptGet response "name"
    if jsTruthy n && jsIsArray n then some (jsArrayOrNil n)
    else
      match response with
      | .jarr (x :: rest) =>
        (jsGet x "name").map (fun n0 =>
          if jsTruthy n0 && jsIsArray n0 then jsArrayOrNil n0 else x :: rest)
      | .jarr [] => some []
      | _ => some []
  else some []

/-! ### `my-day.js`: freed-booking markers -/

/-- `saveFreedBooking` (my-day.js lines 988-998): store the comma-joined
person list under the booking id, replacing any previous entry (JS object
assignment on the `freedBookings` map). -/
def saveFreedBooking (store : List (String × String)) (bookingId freePersonList : String) :
    List (String × String) :=
  if store.any (fun p => p.1 = bookingId) then
    store.map (fun p => if p.1 = bookingId then (bookingId, freePersonList) else p)
  else store ++ [(bookingId, freePersonList)]

/-- Map read `freedBookings[bookingId]` (`none` = `undefined`). -/
def storeGet (store : List (String × String)) (bookingId : String) : Option String :=
  findByKey store bookingId

/-- `isUserFreedFromBooking` (my-day.js lines 1015-1034): false when the
stored list or the user name is falsy, else membership of the trimmed,
lowercased user name in the comma-split, trimmed, lowercased list. -/
def isUserFreedFromBooking (store : List (String × String)) (bookingId currentUserName : String) :
    Bool :=
  match storeGet store bookingId with
  | none => false
  | some freePersonList =>
    if freePersonList = "" || currentUserName = "" then false
    else
      ((splitS ',' freePersonList).map (fun n => toLowerS (trimS n))).contains
        (toLowerS (trimS currentUserName))

/-- The storage step of `markBookingFree` after a successful `free`
request (my-day.js lines 1080-1092): unwrap a non-empty array response to
its first element, and when that element carries truthy `"Booking ID"`
and `"Free person"` string fields, save them; other readable shapes leave
the store unchanged.  A `null`/`undefined` first array element makes the
field read throw (`none`): `markBookingFree`'s catch shows an error and
the store is untouched.  (Non-string truthy field values never occur on
this path and are modelled as not stored.) -/
def markFreeStore (store : List (String × String)) (response : JVal) :
    Option (List (String × String)) :=
  if jsTruthy response then
    let freedData := match response with
      | .jarr (x :: _) => x
      | _ => response
    match jsGet freedData "Booking ID", jsGet freedData "Free person" with
    | some (.jstr bid), some (.jstr fp) =>
      some (if bid ≠ "" && fp ≠ "" then saveFreedBooking store bid fp else store)
    | none, _ => none
    | _, _ => some store
  else some store

/-! ### `attendance.js`: time parsing and option filtering -/

/-- `ATTENDANCE_OPTIONS` (attendance.js lines 15-22) as
`(value, label)` pairs. -/
def ATTENDANCE_OPTIONS : List (String × String) :=
  [("Present", "Present"),
   ("Absent", "Absent"),
   ("First-Half-Leave", "First Half-Day Leave"),
   ("Second-Half-Leave", "Second Half-Day Leave"),
   ("Partial-Late", "Partial Day – Late Arrival"),
   ("Partial-Early", "Partial Day – Leave Early")]

/-- The `\s*(am|pm)$` tail of the 12-hour regex: optional whitespace, then
`am`/`pm` at the end of the string.  Returns whether the marker is `pm`. -/
def parseApEnd (cs : List Char) : Option Bool :=
  match cs.dropWhile isWsChar with
  | ['a', 'm'] => some false
  | ['p', 'm'] => some true
  | _ => none

/-- After the hour digits of `^(\d{1,2})(?::(\d{2}))?\s*(am|pm)$`: the
optional `:MM` group (two digits required, else the group is skipped),
then the am/pm tail.  Yields `(minutes, isPm)`. -/
def afterHourAmPm (rest : List Char) : Option (Nat × Bool) :=
  (match rest with
   | ':' :: a :: b :: r =>
     if a.isDigit && b.isDigit then
       (parseApEnd r).map (fun pm => (digitVal a * 10 + digitVal b, pm))
     else none
   | _ => none)
  <|> (parseApEnd rest).map (fun pm => (0, pm))

/-- The 12-hour hour adjustment of `parseTimeToMinutes` (attendance.js
lines 343-350). -/
def amPmToMinutes (hh mm : Nat) (isPm : Bool) : Nat :=
  let h := if isPm && hh ≠ 12 then hh + 12 else if !isPm && hh = 12 then 0 else hh
  h * 60 + mm

/-- Anchored match of `^(\d{1,2})(?::(\d{2}))?\s*(am|pm)$` (greedy
two-digit hour with one-digit backtracking). -/
def matchAmPm (cs : List Char) : Option Nat :=
  match cs with
  | a :: b :: r =>
    if a.isDigit && b.isDigit then
      match afterHourAmPm r with
      | some (mm, pm) => some (amPmToMinutes (digitVal a * 10 + digitVal b) mm pm)
      | none =>
        (afterHourAmPm (b :: r)).map (fun p => amPmToMinutes (digitVal a) p.1 p.2)
    else if a.isDigit then
      (afterHourAmPm (b :: r)).map (fun p => amPmToMinutes (digitVal a) p.1 p.2)
    else none
  | [a] => if a.isDigit then (afterHourAmPm []).map (fun p => amPmToMinutes (digitVal a) p.1 p.2) else none
  | [] => none

/-- Fixed-width match of `t(\d{2}):(\d{2}):` at the head of the list. -/
def isoHere : List Char → Option Nat
  | 't' :: a :: b :: ':' :: c :: d :: ':' :: _ =>
    if a.isDigit && b.isDigit && c.isDigit && d.isDigit then
      some ((digitVal a * 10 + digitVal b) * 60 + (digitVal c * 10 + digitVal d))
    else none
  | _ => none

/-- Leftmost search for `/t(\d{2}):(\d{2}):/`. -/
def findIsoTime : List Char → Option Nat
  | [] => none
  | l@(_ :: rest) =>
    match isoHere l with
    | some v => some v
    | none => findIsoTime rest

/-- Fixed-width match of `(\d{2}):(\d{2}):(\d{2})` at the head of the
list (the seconds group is matched but unused, as in the source). -/
def hmsHere : List Char → Option Nat
  | a :: b :: ':' :: c :: d :: ':' :: e :: f :: _ =>
    if a.isDigit && b.isDigit && c.isDigit && d.isDigit && e.isDigit && f.isDigit then
      some ((digitVal a * 10 + digitVal b) * 60 + (digitVal c * 10 + digitVal d))
    else none
  | _ => none

/-- Leftmost search for `/(\d{2}):(\d{2}):(\d{2})/`. -/
def findHMS : List Char → Option Nat
  | [] => none
  | l@(_ :: rest) =>
    match hmsHere l with
    | some v => some v
    | none => findHMS rest

/-- `parseTimeToMinutes` (attendance.js lines 336-373): falsy input gives
999999; otherwise the trimmed lowercased string is tried against the
12-hour format, then the ISO-8601 `t HH:MM:` search, then the
`HH:MM:SS` search; 999999 when nothing matches. -/
def parseTimeToMinutes (timeValue : String) : Nat :=
  if timeValue = "" then 999999
  else
    let s := (toLowerS (trimS timeValue)).data
    match matchAmPm s with
    | some v => v
    | none =>
      match findIsoTime s with
      | some v => v
      | none =>
        match findHMS s with
        | some v => v
        | none => 999999

/-- One shoot row as consumed by the attendance filter: the
`shoot["From Time"] || ""` / `shoot["To Time"] || ""` reads (an absent
field is modelled as `""`, which parses to the same 999999). -/
structure Shoot where
  fromTime : String
  toTime : String

/-- The four exclusion flags accumulated over the day's shoots
(attendance.js lines 413-445). -/
structure ShootFlags where
  beforeLate : Bool
  beforeFirst : Bool
  afterSecond : Bool
  afterEarly : Bool

/-- Flag accumulation for one shoot: thresholds 11:30 (690), 15:00 (900)
and 18:30 (1110) minutes. -/
def shootFlagStep (fl : ShootFlags) (sh : Shoot) : ShootFlags :=
  let fromMinutes := parseTimeToMinutes sh.fromTime
  let toMinutes := parseTimeToMinutes sh.toTime
  { beforeLate := fl.beforeLate || fromMinutes < 690,
    beforeFirst := fl.beforeFirst || fromMinutes < 900,
    afterSecond := fl.afterSecond || (toMinutes ≥ 900 || fromMinutes ≥ 900),
    afterEarly := fl.afterEarly || toMinutes > 1110 }

/-- `getFilteredAttendanceOptions` (attendance.js lines 386-478) applied
to the day's shoot list: all options when there is no shoot; otherwise
drop `Absent`, apply the four flag-driven exclusions, and re-add
`Present` in front if it went missing (it never does). -/
def getFilteredAttendanceOptions (shoots : List Shoot) : List (String × String) :=
  if shoots.isEmpty then ATTENDANCE_OPTIONS
  else
    let fl := shoots.foldl shootFlagStep ⟨false, false, false, false⟩
    let filtered := ATTENDANCE_OPTIONS.filter (fun o => o.1 ≠ "Absent")
    let filtered := if fl.beforeLate then filtered.filter (fun o => o.1 ≠ "Partial-Late") else filtered
    let filtered := if fl.beforeFirst then filtered.filter (fun o => o.1 ≠ "First-Half-Leave") else filtered
    let filtered := if fl.afterSecond then filtered.filter (fun o => o.1 ≠ "Second-Half-Leave") else filtered
    let filtered := if fl.afterEarly then filtered.filter (fun o => o.1 ≠ "Partial-Early") else filtered
    if filtered.any (fun o => o.1 = "Present") then filtered
    else ("Present", "Present") :: filtered

/-! ### `api/n8n.js`: the gateway proxy response handling -/

/-- The 500 body `{ok:false, message:"Idempotency key mismatch",
request_id}` (n8n.js lines 81-85). -/
def mismatchBody (request_id : String) : JVal :=
  .jobj [("ok", .jbool false),
         ("message", .jstr "Idempotency key mismatch"),
         ("request_id", .jstr request_id)]

/-- The response-side tail of the proxy `handler` (n8n.js lines 78-98):
the guard `responseData.request_id && responseData.request_id !==
request_id` answers HTTP 500 with the mismatch body when it fires, and
the upstream status with the parsed upstream body otherwise.  When the
parsed body is JSON `null`, the `responseData.request_id` read throws a
`TypeError` (`none`): the surrounding catch (n8n.js lines 91-98) then
answers 500 with `{ok:false, message:<the runtime error text>,
request_id}` instead of relaying. -/
def n8nHandleResponse (request_id : String) (upstreamStatus : Nat) (responseData : JVal) :
    Option (Nat × JVal) :=
  match jsGet responseData "request_id" with
  | none => none
  | some rid =>
    if jsTruthy rid && jvalNeqStr rid request_id then some (500, mismatchBody request_id)
    else some (upstreamStatus, responseData)

/-- The guard as the claim under scrutiny words it: the parsed body
*contains* a `request_id` that *differs* from the request's
(presence-and-difference, with no truthiness condition). -/
def claimedMismatch (request_id : String) (responseData : JVal) : Bool :=
  match lookupField responseData "request_id" with
  | some v => jvalNeqStr v request_id
  | none => false

/-- Spec-side rewording of the echo-check guard for the amended gateway
claim: the parsed body carries a *non-empty* `request_id` string differing
from the request's (a present non-string field fires exactly when truthy,
matching the JS `&&` / `!==` pair). -/
def amendedMismatch (request_id : String) (responseData : JVal) : Bool :=
  match lookupField responseData "request_id" with
  | some (.jstr s) => s ≠ "" && s ≠ request_id
  | some v => jsTruthy v
  | none => false

/-- The gateway claim as stated: whenever the parsed upstream body contains
a `request_id` differing from the request's, the handler answers
`(500, mismatch body)`; otherwise it relays the upstream status and body. -/
def c7ClaimAsStated : Prop :=
  ∀ (request_id : String) (upstreamStatus : Nat) (responseData : JVal),
    (claimedMismatch request_id responseData = true →
      n8nHandleResponse request_id upstreamStatus responseData =
        some (500, mismatchBody request_id)) ∧
    (claimedMismatch request_id responseData = false →
      n8nHandleResponse request_id upstreamStatus responseData =
        some (upstreamStatus, responseData))

/-! ## Helper lemmas -/

/-- On the 48-slot grid, JS string comparison against the two threshold
shapes `HH:30` / `HH:00` (hours below 24) agrees with comparison of
minutes since midnight. -/
theorem gridThresholdOrder : ∀ h : Nat, h < 24 → ∀ t ∈ timeGrid,
    (jsStrGe t (pad2 h ++ ":30") = decide ((Int.ofNat (h * 60 + 30)) ≤ specMinutes t)) ∧
    (jsStrGe t (pad2 h ++ ":00") = decide ((Int.ofNat (h * 60)) ≤ specMinutes t)) := by
  decide

/-- Replacing the binding of a present key leaves it found with the new
value. -/
theorem findByKey_repl : ∀ (l : List (String × String)) (k v : String),
    l.any (fun p => p.1 = k) = true →
    findByKey (l.map (fun p => if p.1 = k then (k, v) else p)) k = some v := by
  intro l k v h
  induction l with
  | nil => simp at h
  | cons a t ih =>
    by_cases ha : a.1 = k
    · simp [findByKey, ha]
    · simp only [List.any_cons, ha, decide_False, Bool.false_or] at h
      simp only [List.map_cons, findByKey, if_neg ha, ha, ite_false]
      exact ih h

/-- Appending a binding for an absent key makes it found. -/
theorem findByKey_app : ∀ (l : List (String × String)) (k v : String),
    l.any (fun p => p.1 = k) = false →
    findByKey (l ++ [(k, v)]) k = some v := by
  intro l k v h
  induction l with
  | nil => simp [findByKey]
  | cons a t ih =>
    simp only [List.any_cons, Bool.or_eq_false_iff, decide_eq_false_iff_not] at h
    obtain ⟨ha, ht⟩ := h
    simp only [List.cons_append, findByKey, if_neg ha]
    exact ih (by simpa using ht)

/-- Reading back a just-saved freed-booking marker yields the saved
list. -/
theorem storeGet_save (store : List (String × String)) (k v : String) :
    storeGet (saveFreedBooking store k v) k = some v := by
  unfold saveFreedBooking storeGet
  by_cases hmem : store.any (fun p => p.1 = k)
  · simp [hmem, findByKey_repl store k v hmem]
  · simp only [Bool.not_eq_true] at hmem
    simp [hmem, findByKey_app store k v hmem]

/-! ## Claim theorems -/

/-- C1: for every pair of `HH:MM` strings on the 30-minute grid,
`validateTimeSelection(fromTime, toTime).valid` holds exactly when the
literal minutes-since-midnight difference `toTime - fromTime` is between
30 and 1800; in particular 14:00 to 14:30 is valid and 14:00 to 14:00 is
not. -/
theorem spec_c1 :
    (∀ f ∈ timeGrid, ∀ t ∈ timeGrid,
      ((validateTimeSelection f t).valid = true ↔
        (30 ≤ specMinutes t - specMinutes f ∧ specMinutes t - specMinutes f ≤ 1800))) ∧
    (validateTimeSelection "14:00" "14:30").valid = true ∧
    (validateTimeSelection "14:00" "14:00").valid = false := by
  decide

/-- Witness for C1: the equivalence evaluated at the concrete grid pair
14:00 / 14:30. -/
theorem spec_c1_witness :
    (validateTimeSelection "14:00" "14:30").valid = true ↔
      (30 ≤ specMinutes "14:30" - specMinutes "14:00" ∧
        specMinutes "14:30" - specMinutes "14:00" ≤ 1800) :=
  spec_c1.1 "14:00" (by decide) "14:30" (by decide)

/-- C2: the lock-response membership test is case-insensitive and accepts
an exact or `"name -"`/`"name "`-style match, so `"deepak sharma"` matches
`"Deepak Sharma - Creator"` but not `"Deepak Sharma2 - Creator"`; and
whenever the roster is non-empty and the user matches no entry,
`lockDateAndTime` rejects with the already-booked outcome (and so never
reaches the locked state). -/
theorem spec_c2 :
    isInList "deepak sharma" ["Deepak Sharma - Creator"] = true ∧
    isInList "deepak sharma" ["Deepak Sharma2 - Creator"] = false ∧
    (∀ (userName : String) (names : List String), names ≠ [] →
      isInList userName names = false →
      lockOutcome userName (.jobj [("name", .jarr (names.map .jstr))]) =
        some .alreadyBooked) := by
  refine ⟨by decide, by decide, ?_⟩
  intro u names hne hnot
  have hkey : isOngoing (jsOptGet (.jobj [("name", .jarr (names.map .jstr))]) "key") = false := rfl
  have harr : lockNamesArray (.jobj [("name", .jarr (names.map .jstr))]) =
      some (names.map .jstr) := rfl
  have hid : (jsStringOrEmpty ∘ JVal.jstr) = id := funext (fun _ => rfl)
  have hpos : 0 < names.length := List.length_pos.mpr hne
  simp [lockOutcome, hkey, harr, List.map_map, hid, hnot, hpos]

/-- Witness for C2: a non-empty roster not matching the current user is
rejected as already booked. -/
theorem spec_c2_witness :
    lockOutcome "deepak sharma" (.jobj [("name", .jarr [.jstr "Someone Else - Creator"])]) =
      some .alreadyBooked :=
  spec_c2.2.2 "deepak sharma" ["Someone Else - Creator"] (by decide) (by decide)

/-- Counterexample to C3 as stated: a lock response that is a bare array
of name strings is normalized by the booking lock path to the *empty*
sequence, not to the carried names (the edit-team path does yield them). -/
theorem spec_c3_cx :
    lockNamesArray (.jarr [.jstr "Asha - Creator"]) = some [] ∧
    editNamesArray (.jarr [.jstr "Asha - Creator"]) = some [.jstr "Asha - Creator"] ∧
    ([] : List JVal) ≠ [.jstr "Asha - Creator"] :=
  ⟨rfl, rfl, by simp⟩

/-- C3 (amended): the booking lock path accepts the two object shapes
`{name:[...]}` and `[{name:[...]}]` and yields the carried ordered name
sequence, but normalizes a bare array of strings to the empty roster;
only the edit-team path accepts all three shapes and yields the same
sequence for each. -/
theorem spec_c3 : ∀ names : List String,
    lockNamesArray (.jobj [("name", .jarr (names.map .jstr))]) = some (names.map .jstr) ∧
    lockNamesArray (.jarr [.jobj [("name", .jarr (names.map .jstr))]]) = some (names.map .jstr) ∧
    lockNamesArray (.jarr (names.map .jstr)) = some [] ∧
    editNamesArray (.jobj [("name", .jarr (names.map .jstr))]) = some (names.map .jstr) ∧
    editNamesArray (.jarr [.jobj [("name", .jarr (names.map .jstr))]]) = some (names.map .jstr) ∧
    editNamesArray (.jarr (names.map .jstr)) = some (names.map .jstr) := by
  intro names
  cases names with
  | nil => exact ⟨rfl, rfl, rfl, rfl, rfl, rfl⟩
  | cons a l => exact ⟨rfl, rfl, rfl, rfl, rfl, rfl⟩

/-- C4: checking a person's cast checkbox and then selecting the same
person as DOP is a reachable event sequence (the re-render only disables
the cast checkbox, it does not clear the earlier cast selection), and the
resulting submission payload carries that person in both `selected.dops`
and `selected.names` - the dual-role exclusion the claim asserts is
violated. -/
theorem spec_c4 :
    runSel ["Ravi - DOP"] ["Ravi - DOP"] ⟨[], []⟩
        [.castChange "Ravi - DOP" true, .dopChange "Ravi - DOP" true] =
      some ⟨["Ravi - DOP"], ["Ravi - DOP"]⟩ ∧
    (submitSelected ⟨["Ravi - DOP"], ["Ravi - DOP"]⟩).1.contains "Ravi - DOP" = true ∧
    (submitSelected ⟨["Ravi - DOP"], ["Ravi - DOP"]⟩).2.contains "Ravi - DOP" = true := by
  decide

/-- C5: with the in-flight guard clear, a first `submitBooking` invocation
issues exactly one network call and sets the guard, a second invocation
while the first is pending changes nothing (no second call), and once the
first call settles - success or failure alike - the guard is clear again
with still exactly one call issued. -/
theorem spec_c5 : ∀ (p : Nat) (b : Bool),
    submitInvoke (submitInvoke ⟨false, p⟩) = submitInvoke ⟨false, p⟩ ∧
    (submitInvoke ⟨false, p⟩).posts = p + 1 ∧
    (submitInvoke ⟨false, p⟩).inFlight = true ∧
    submitSettle (submitInvoke (submitInvoke ⟨false, p⟩)) b = ⟨false, p + 1⟩ := by
  intro p b
  simp [submitInvoke, submitSettle]

/-- Counterexample to C6 as stated: at exactly 14:00 the claimed offer
(grid minus times strictly before the ceiling round-up, which is 14:00
itself) still contains "14:00", but the code filters from 14:30 and
excludes it. -/
theorem spec_c6_cx :
    claimAvailableToday 14 0 ≠ availableTimesToday 14 0 ∧
    "14:00" ∈ claimAvailableToday 14 0 ∧
    "14:00" ∉ availableTimesToday 14 0 := by
  decide

/-- C6 (amended): with "today" selected at clock time `h:m` (h < 24), a
grid time is offered exactly when, compared as minutes within the day
(equivalently as `HH:MM` strings, so the wrapped next-day block 00:00 to
07:30 counts as early morning), it is at or after the threshold `h:30`
when `m ≤ 30` - including `m = 0`, so the `h:00` slot itself is dropped -
and `(h+1) mod 24:00` when `m > 30`. -/
theorem spec_c6 : ∀ (hNow mNow : Nat), hNow < 24 → ∀ t ∈ timeGrid,
    (t ∈ availableTimesToday hNow mNow ↔ filterMinutes hNow mNow ≤ specMinutes t) := by
  intro hNow mNow hlt t ht
  by_cases hm : mNow ≤ 30
  · have key := (gridThresholdOrder hNow hlt t ht).1
    simp only [availableTimesToday, filterTimeFor, filterMinutes, if_pos hm, List.mem_filter,
      key, ht, true_and, decide_eq_true_eq]
  · have hlt' : (hNow + 1) % 24 < 24 := Nat.mod_lt _ (by norm_num)
    have key := (gridThresholdOrder ((hNow + 1) % 24) hlt' t ht).2
    simp only [availableTimesToday, filterTimeFor, filterMinutes, if_neg hm, List.mem_filter,
      key, ht, true_and, decide_eq_true_eq]

/-- Witness for C6: at 14:00, the slot "14:30" meets the threshold and is
offered. -/
theorem spec_c6_witness : "14:30" ∈ availableTimesToday 14 0 :=
  (spec_c6 14 0 (by decide) "14:30" (by decide)).mpr (by decide)

/-- Counterexample to C7 as stated: the response body
`{request_id: ""}` contains a `request_id` differing from the request's
`"abc"`, yet the handler relays the upstream status instead of answering
500 (the guard tests JS truthiness, and `""` is falsy). -/
theorem spec_c7_cx : ¬ c7ClaimAsStated := by
  intro h
  have h1 := (h "abc" 200 (.jobj [("request_id", .jstr "")])).1 (by decide)
  have h2 := congrArg (fun o => (o.getD (0, JVal.jnull)).1) h1
  exact absurd h2 (by decide)

/-- C7 (amended): for a parsed body that is JSON `null`, the
`request_id` read throws and the catch answers 500 with the error
message (`none`, not a relay); for every other parsed body the proxy
answers `(500, mismatch body)` exactly when it carries a truthy (for
strings: non-empty) `request_id` that differs from the request's, and
relays the upstream status and body otherwise. -/
theorem spec_c7 : ∀ (request_id : String) (upstreamStatus : Nat) (responseData : JVal),
    n8nHandleResponse request_id upstreamStatus responseData =
      match responseData with
      | .jnull => none
      | _ =>
        if amendedMismatch request_id responseData then some (500, mismatchBody request_id)
        else some (upstreamStatus, responseData) := by
  intro rid st resp
  cases resp with
  | jobj fs =>
    cases hf : findByKey fs "request_id" with
    | none => simp [n8nHandleResponse, amendedMismatch, jsGet, lookupField, hf, jsTruthy]
    | some w =>
      cases w <;>
        simp [n8nHandleResponse, amendedMismatch, jsGet, lookupField, hf, jsTruthy, jvalNeqStr]
  | jnull => rfl
  | jbool b => rfl
  | jnum n => rfl
  | jstr s => rfl
  | jarr xs => rfl

/-- C8: the day with the single shoot 09:00-13:00 is filtered to
`[Present, First-Half-Leave, Partial-Late]` - the code cannot parse the
bare `HH:MM` format (999999), so it *retains* Partial-Late and
First-Half-Leave and *drops* Second-Half-Leave and Partial-Early, the
opposite of the claimed sets; the same times written `9:00 am`-`1:00 pm`
produce exactly the claimed result. -/
theorem spec_c8 :
    parseTimeToMinutes "09:00" = 999999 ∧
    getFilteredAttendanceOptions [⟨"09:00", "13:00"⟩] =
      [("Present", "Present"), ("First-Half-Leave", "First Half-Day Leave"),
       ("Partial-Late", "Partial Day – Late Arrival")] ∧
    getFilteredAttendanceOptions [⟨"9:00 am", "1:00 pm"⟩] =
      [("Present", "Present"), ("Second-Half-Leave", "Second Half-Day Leave"),
       ("Partial-Early", "Partial Day – Leave Early")] := by
  decide

/-- Counterexample to C9 as stated: a successful free request by user
"Asha" whose response echoes `Free person: "Ravi Kumar"` stores that list
verbatim, and `isUserFreedFromBooking` then does *not* hold for Asha -
the client never appends the current user. -/
theorem spec_c9_cx :
    markFreeStore [] (.jobj [("Booking ID", .jstr "B1"), ("Free person", .jstr "Ravi Kumar")]) =
      some [("B1", "Ravi Kumar")] ∧
    isUserFreedFromBooking [("B1", "Ravi Kumar")] "B1" "Asha" = false := by
  decide

/-- C9 (amended): on a successful free whose response carries truthy
`Booking ID` and `Free person` fields, the client stores the *echoed*
comma-separated list under that id, replacing any prior marker (it does
not append the current user), and `isUserFreedFromBooking` subsequently
holds for a user exactly when their trimmed lowercased name is among the
stored list's trimmed lowercased entries. -/
theorem spec_c9 : ∀ (store : List (String × String)) (bid fp user : String),
    bid ≠ "" → fp ≠ "" →
    (markFreeStore store (.jobj [("Booking ID", .jstr bid), ("Free person", .jstr fp)]) =
      some (saveFreedBooking store bid fp)) ∧
    (user ≠ "" →
      isUserFreedFromBooking (saveFreedBooking store bid fp) bid user =
        ((splitS ',' fp).map (fun n => toLowerS (trimS n))).contains (toLowerS (trimS user))) := by
  intro store bid fp user hb hf
  constructor
  · simp [markFreeStore, jsGet, findByKey, jsTruthy, hb, hf]
  · intro hu
    simp [isUserFreedFromBooking, storeGet_save, hf, hu]

/-- Witness for C9: freeing against an empty store with echoed list
"Asha, Ravi" stores it, and user "asha" is then found freed. -/
theorem spec_c9_witness :
    (markFreeStore [] (.jobj [("Booking ID", .jstr "B1"), ("Free person", .jstr "Asha, Ravi")]) =
      some (saveFreedBooking [] "B1" "Asha, Ravi")) ∧
    isUserFreedFromBooking (saveFreedBooking [] "B1" "Asha, Ravi") "B1" "asha" =
      ((splitS ',' "Asha, Ravi").map (fun n => toLowerS (trimS n))).contains
        (toLowerS (trimS "asha")) :=
  ⟨(spec_c9 [] "B1" "Asha, Ravi" "asha" (by decide) (by decide)).1,
   (spec_c9 [] "B1" "Asha, Ravi" "asha" (by decide) (by decide)).2 (by decide)⟩

/-- Counterexample to C10 as stated: the response
`{key: "Ongoing Booking"}` has an empty normalized roster, yet
`lockDateAndTime` returns the soft-conflict outcome and does not
transition to the locked state. -/
theorem spec_c10_cx :
    lockNamesArray (.jobj [("key", .jstr "Ongoing Booking")]) = some [] ∧
    lockOutcome "asha" (.jobj [("key", .jstr "Ongoing Booking")]) = some .ongoingConflict ∧
    lockOutcome "asha" (.jobj [("key", .jstr "Ongoing Booking")]) ≠
      some (.locked [] [] 90000) :=
  ⟨rfl, rfl, fun h => nomatch h⟩

/-- C10 (amended): for every lock response that does not signal
`key = "Ongoing Booking"`, an empty roster produced by a normalization
that completes without throwing (including every unrecognized readable
shape) always transitions to the locked state with empty DOP and cast
lists and the 90-second timer; the already-booked rejection is reachable
only from a non-empty roster; and a response such as `[null]`, whose
normalization throws at `response[0].name`, ends in the catch block and
never locks. -/
theorem spec_c10 :
    (∀ (userName : String) (response : JVal),
      lockNamesArray response = some [] → isOngoing (jsOptGet response "key") = false →
      lockOutcome userName response = some (.locked [] [] 90000)) ∧
    (∀ (userName : String) (response : JVal),
      lockOutcome userName response = some .alreadyBooked →
      lockNamesArray response ≠ some []) ∧
    (∀ userName : String, lockOutcome userName (.jarr [.jnull]) = none) := by
  refine ⟨?_, ?_, ?_⟩
  · intro u r hempty hkey
    simp [lockOutcome, hkey, hempty, dopFilter]
  · intro u r h hempty
    rw [lockOutcome, hempty] at h
    simp [dopFilter] at h
    split at h
    · exact nomatch h
    · exact nomatch h
  · intro u
    rfl

/-- Witness for C10: the empty-object response (empty roster, no conflict
marker) locks with empty lists and the 90-second timer. -/
theorem spec_c10_witness : lockOutcome "asha" (.jobj []) = some (.locked [] [] 90000) :=
  spec_c10.1 "asha" (.jobj []) rfl rfl
